import Mathlib

/-!
Verification of the gym_system repository's subscription lifecycle,
gift-card / promotional-offer billing, fingerprint attendance
reconciliation and device command queue.

The Lean definitions below are a shallow embedding of the Python source:

* SQLAlchemy rows become Lean structures; `db.Numeric` money columns and
  Python `float` arithmetic are modelled exactly over `ℚ`; `db.Date` and
  `db.DateTime` columns become `Int` (days, resp. an abstract time stamp);
  nullable columns become `Option _`.
* ORM queries (`filter_by(...).first()`, `.all()`, `order_by`) become
  `List.find?` / `List.filter` / a stable sort over an explicit list of rows.
* Route handlers become functions from the relevant rows and validated form
  data to updated rows; a Python exception is an `Except` error.
-/

namespace Gym

/-- Python runtime exceptions that the modelled code can raise. -/
inductive PyExc where
  | attributeError
  deriving DecidableEq, Repr

/-! ## Gift cards — `app/models/giftcard.py` -/

/-- Row of the `gift_cards` table (the columns the modelled code reads or
writes).  `status` ranges over the strings used by the source:
`active`, `partially_used`, `redeemed`, `expired`, `cancelled`. -/
structure GiftCard where
  id : Int
  brand_id : Int
  code : String
  original_amount : ℚ
  remaining_amount : ℚ
  subscription_id : Option Int
  status : String
  expires_at : Option Int
  redeemed_at : Option Int
  redeemed_by_member_id : Option Int
  deriving DecidableEq, Repr

/-- `GiftCard.is_valid` (giftcard.py lines 67–76): status must be
`active` or `partially_used`, the card must not be past `expires_at`
(a `None` expiry never expires), and the remaining balance must be
strictly positive. -/
def GiftCard.is_valid (c : GiftCard) (today : Int) : Bool :=
  if ¬ (c.status = "active" ∨ c.status = "partially_used") then false
  else if (match c.expires_at with
           | some d => decide (d < today)
           | none => false) then false
  else if c.remaining_amount ≤ 0 then false
  else true

/-- `GiftCard.redeem` (giftcard.py lines 107–132).  Returns the triple
`(success, amount_redeemed, updated card)`; the Arabic message strings of
the source are not modelled.  An invalid card is returned unchanged with
`(False, 0)`; otherwise the amount is capped at the remaining balance,
the balance is reduced, and the status becomes `redeemed` (stamping
`redeemed_at`) when the new balance is `≤ 0`, else `partially_used`. -/
def GiftCard.redeem (c : GiftCard) (today now : Int) (amount : ℚ)
    (member_id : Int) (subscription_id : Option Int) : Bool × ℚ × GiftCard :=
  if ¬ c.is_valid today then (false, 0, c)
  else
    let amt := if amount > c.remaining_amount then c.remaining_amount else amount
    let c' : GiftCard :=
      { c with
        remaining_amount := c.remaining_amount - amt
        redeemed_by_member_id := some member_id
        subscription_id := subscription_id }
    if c'.remaining_amount ≤ 0 then
      (true, amt, { c' with status := "redeemed", redeemed_at := some now })
    else
      (true, amt, { c' with status := "partially_used" })

/-! ## Plans, subscriptions and freezes — `app/models/subscription.py` -/

/-- Row of the `plans` table (the columns the modelled code reads). -/
structure Plan where
  id : Int
  brand_id : Int
  price : ℚ
  duration_days : Int
  max_freezes : Int
  max_freeze_days : Int
  requires_class_booking : Bool
  is_active : Bool
  deriving DecidableEq, Repr

/-- Row of the `subscription_freezes` table. -/
structure SubscriptionFreeze where
  freeze_start : Int
  freeze_end : Int
  freeze_days : Int
  deriving DecidableEq, Repr

/-- Row of the `subscriptions` table together with its related
`SubscriptionFreeze` rows (the `freezes` relationship).  `status` ranges
over the strings used by the source: `active`, `frozen`, `expired`,
`cancelled`, `stopped`. -/
structure Subscription where
  id : Int
  member_id : Int
  plan_id : Int
  start_date : Int
  end_date : Int
  original_end_date : Int
  total_amount : ℚ
  paid_amount : ℚ
  remaining_amount : ℚ
  discount : ℚ
  offer_id : Option Int
  offer_discount : ℚ
  gift_card_id : Option Int
  status : String
  freezes : List SubscriptionFreeze
  deriving DecidableEq, Repr

/-- `Subscription.freeze_count` (subscription.py): number of related
freeze rows. -/
def Subscription.freeze_count (s : Subscription) : Int :=
  s.freezes.length

/-- `Subscription.total_freeze_days` (subscription.py): sum of
`freeze_days` over the related freeze rows. -/
def Subscription.total_freeze_days (s : Subscription) : Int :=
  (s.freezes.map (·.freeze_days)).sum

/-- `Subscription.can_freeze` (subscription.py lines 128–138): the status
must be `active` and the freeze count strictly below the plan's
`max_freezes`.  The plan is the row referenced by the `plan`
relationship. -/
def Subscription.can_freeze (s : Subscription) (plan : Plan) : Bool :=
  if s.status ≠ "active" then false
  else s.freeze_count < plan.max_freezes

/-- The `freeze` route (routes/subscriptions.py lines 371–419) on a valid
form submission: rejected (returning the subscription unchanged) when
`can_freeze` fails or the requested days exceed
`plan.max_freeze_days - total_freeze_days`; otherwise a freeze record for
`days` days is added, `end_date` is pushed back by `days` and the status
becomes `frozen`.  The Boolean reports acceptance. -/
def Subscription.freeze (s : Subscription) (plan : Plan)
    (freeze_start days : Int) : Bool × Subscription :=
  if ¬ s.can_freeze plan then (false, s)
  else
    let remaining_days := plan.max_freeze_days - s.total_freeze_days
    if days > remaining_days then (false, s)
    else
      let fr : SubscriptionFreeze :=
        { freeze_start := freeze_start
          freeze_end := freeze_start + days
          freeze_days := days }
      (true,
        { s with
          freezes := s.freezes ++ [fr]
          end_date := s.end_date + days
          status := "frozen" })

/-- The `renew` route (routes/subscriptions.py lines 322–363) on a valid
form submission.  The form's `discount` field is parsed by the handler
but never used in the update — renewal adds the plain plan price.
`total_amount`/`paid_amount` are nullable in the schema and read through
`or 0`; the model keeps them non-null, on which `or 0` is the
identity. -/
def Subscription.renew (s : Subscription) (plan : Plan) (paid_amount : ℚ)
    (discount : ℚ) (new_start : Int) : Subscription :=
  let _ := discount
  let new_end := new_start + plan.duration_days
  { s with
    plan_id := plan.id
    start_date := new_start
    end_date := new_end
    original_end_date := new_end
    total_amount := s.total_amount + plan.price
    paid_amount := s.paid_amount + paid_amount
    remaining_amount :=
      (s.total_amount + plan.price) - (s.paid_amount + paid_amount)
    status := "active" }

/-- The `unfreeze` route (routes/subscriptions.py lines 422–441): a
subscription whose status is not `frozen` is left unchanged, otherwise
its status is set back to `active`.  The Boolean reports whether the
unfreeze was performed. -/
def Subscription.unfreeze (s : Subscription) : Bool × Subscription :=
  if s.status ≠ "frozen" then (false, s)
  else (true, { s with status := "active" })

/-- The `stop` route (routes/subscriptions.py lines 536–563): only a
subscription whose status is `active` or `frozen` is stopped (status
`stopped`); otherwise it is left unchanged.  The stop reason and audit
columns are not modelled. -/
def Subscription.stop (s : Subscription) : Subscription :=
  if ¬ (s.status = "active" ∨ s.status = "frozen") then s
  else { s with status := "stopped" }

/-- `Subscription.check_and_update_status` (subscription.py lines
172–177): an `active` subscription past its `end_date` becomes
`expired`; every other subscription is unchanged. -/
def Subscription.check_and_update_status (s : Subscription)
    (today : Int) : Subscription :=
  if s.status = "active" ∧ s.end_date < today then
    { s with status := "expired" }
  else s

/-- The state-writing operations of the application on an existing
subscription row, as exposed by `routes/subscriptions.py`. -/
inductive Op where
  | renew (plan : Plan) (paid_amount discount : ℚ) (new_start : Int)
  | freeze (plan : Plan) (freeze_start days : Int)
  | unfreeze
  | stop
  | checkStatus (today : Int)
  deriving Repr

/-- Effect of one operation on a subscription row (a rejected operation
leaves the row unchanged, as the corresponding route does). -/
def Op.apply (op : Op) (s : Subscription) : Subscription :=
  match op with
  | .renew plan paid discount new_start => s.renew plan paid discount new_start
  | .freeze plan fs days => (s.freeze plan fs days).2
  | .unfreeze => s.unfreeze.2
  | .stop => s.stop
  | .checkStatus today => s.check_and_update_status today

/-- The five subscription statuses documented in
`app/models/subscription.py` (`# Status: active, frozen, expired,
cancelled, stopped`). -/
def statusOk (s : Subscription) : Prop :=
  s.status = "active" ∨ s.status = "frozen" ∨ s.status = "expired" ∨
    s.status = "cancelled" ∨ s.status = "stopped"

instance (s : Subscription) : Decidable (statusOk s) := by
  unfold statusOk; infer_instance

/-! ## Promotional offers — `app/models/offer.py` -/

/-- Row of the `promotional_offers` table (the columns the modelled code
reads or writes).  `discount_type` is `percentage` or `fixed_amount`;
`max_uses` is nullable (`None` = unlimited). -/
structure PromotionalOffer where
  id : Int
  brand_id : Int
  discount_type : String
  discount_value : ℚ
  start_date : Int
  end_date : Int
  max_uses : Option Int
  current_uses : Int
  is_active : Bool
  deriving DecidableEq, Repr

/-- `PromotionalOffer.is_valid` (offer.py lines 49–59): the offer must be
active, today must lie between `start_date` and `end_date`, and — when
`max_uses` is truthy (non-`None` and non-zero) — `current_uses` must be
below it. -/
def PromotionalOffer.is_valid (o : PromotionalOffer) (today : Int) : Bool :=
  if ¬ o.is_active then false
  else if today < o.start_date ∨ today > o.end_date then false
  else if (match o.max_uses with
           | some m => decide (m ≠ 0 ∧ o.current_uses ≥ m)
           | none => false) then false
  else true

/-- Python attribute lookup `offer.can_use`, as evaluated by the `create`
route (routes/subscriptions.py line 185).  `PromotionalOffer`
(app/models/offer.py) defines no column, property or method named
`can_use` — its validity check is the property `is_valid` — so the
lookup raises `AttributeError` for every offer row. -/
def PromotionalOffer.can_use_lookup (o : PromotionalOffer) :
    Except PyExc Bool :=
  let _ := o
  .error .attributeError

/-! ## Members — `app/models/member.py` -/

/-- Row of the `members` table.  `has_active_subscription` stands for the
value of the member-model property of that name at the time of the
request (a query over the member's subscriptions, used by `create` only
as a gate). -/
structure Member where
  id : Int
  brand_id : Int
  name : String
  fingerprint_id : Option Int
  has_active_subscription : Bool
  deriving DecidableEq, Repr

/-! ## Subscription creation — `create` in `app/routes/subscriptions.py`
(lines 131–278, billing logic at 172–234) -/

/-- Rows written (or referenced) by a successful `create`: the new
subscription plus the post-request state of the gift-card row and of the
`offer` local variable when one was looked up. -/
structure CreateOutcome where
  subscription : Subscription
  offer : Option PromotionalOffer
  gift_card : Option GiftCard
  deriving DecidableEq, Repr

/-- The `create` route on a valid form submission.  `plan` is the row
selected through the form's validated `plan_id` choice; `offers` and
`gift_cards` are the relevant table contents.  Returns `.ok none` when
the member already has an active subscription (the handler redirects
without creating anything), propagates a Python exception as `.error`,
and otherwise returns the created rows.  Payment and income rows and the
flash messages are not modelled.  Mirrored source steps:

* `discount = float(form.discount.data or 0)`;
* offer step (lines 183–191): when `form.offer_id.data` is truthy and
  non-zero the offer row is fetched and `offer.can_use` is evaluated —
  an `AttributeError`, see `PromotionalOffer.can_use_lookup`; the
  never-reached `can_use` branch computes the percentage or fixed
  discount and increments `current_uses`;
* gift-card step (lines 193–205): the card is looked up by brand,
  normalised code (`strip().upper()`) and status `active`; when found
  with positive balance, the applied amount is
  `min(remaining, price - discount - offer_discount)` and the balance is
  reduced, the card becoming `redeemed` when it reaches `≤ 0`;
* totals (lines 207–209): `total = price - discount - offer_discount -
  gift_card_amount`, `remaining = max(0, total - paid)`;
* dates and the new row (lines 211–235): `start = today`,
  `end = start + plan.duration_days`, status `active`. -/
def create_subscription (today now : Int) (member : Member) (plan : Plan)
    (discount_field : Option ℚ) (offer_id_field : Option Int)
    (gift_card_code_field : Option String) (paid_amount_field : ℚ)
    (offers : List PromotionalOffer) (gift_cards : List GiftCard) :
    Except PyExc (Option CreateOutcome) :=
  if member.has_active_subscription then .ok none
  else
    let discount := discount_field.getD 0
    let offerStep : Except PyExc (ℚ × Option PromotionalOffer) :=
      match offer_id_field with
      | some oid =>
        if oid ≠ 0 then
          match offers.find? (fun o => o.id == oid) with
          | some o =>
            match o.can_use_lookup with
            | .error e => .error e
            | .ok b =>
              if b then
                let offer_discount :=
                  if o.discount_type = "percentage" then
                    plan.price * (o.discount_value / 100)
                  else o.discount_value
                .ok (offer_discount,
                     some { o with current_uses := o.current_uses + 1 })
              else .ok (0, some o)
          | none => .ok (0, none)
        else .ok (0, none)
      | none => .ok (0, none)
    match offerStep with
    | .error e => .error e
    | .ok (offer_discount, offerVar) =>
      let giftStep : ℚ × Option GiftCard :=
        match gift_card_code_field with
        | some code =>
          if code ≠ "" then
            let normalized := code.trim.toUpper
            match gift_cards.find? (fun c =>
                c.brand_id == member.brand_id && c.code == normalized &&
                  c.status == "active") with
            | some c =>
              if c.remaining_amount > 0 then
                let gift_card_amount :=
                  min c.remaining_amount
                    (plan.price - discount - offer_discount)
                let c' : GiftCard :=
                  { c with remaining_amount :=
                      c.remaining_amount - gift_card_amount }
                if c'.remaining_amount ≤ 0 then
                  (gift_card_amount,
                   some { c' with
                          status := "redeemed"
                          redeemed_at := some now
                          redeemed_by_member_id := some member.id })
                else (gift_card_amount, some c')
              else (0, some c)
            | none => (0, none)
          else (0, none)
        | none => (0, none)
      let gift_card_amount := giftStep.1
      let cardVar := giftStep.2
      let total_amount :=
        plan.price - discount - offer_discount - gift_card_amount
      let paid_amount := paid_amount_field
      let remaining_amount := max 0 (total_amount - paid_amount)
      let end_date := today + plan.duration_days
      let sub : Subscription :=
        { id := 0
          member_id := member.id
          plan_id := plan.id
          start_date := today
          end_date := end_date
          original_end_date := end_date
          total_amount := total_amount
          paid_amount := paid_amount
          remaining_amount := remaining_amount
          discount := discount
          offer_id := offerVar.map (·.id)
          offer_discount := offer_discount
          gift_card_id := cardVar.map (·.id)
          status := "active"
          freezes := [] }
      .ok (some { subscription := sub, offer := offerVar,
                  gift_card := cardVar })

/-! ## Fingerprint attendance sync — `sync_attendance` in
`app/routes/api.py` (lines 48–250) -/

/-- Row of the `users` table (the columns `sync_attendance` reads). -/
structure UserRow where
  id : Int
  brand_id : Int
  fingerprint_id : Option Int
  is_active : Bool
  deriving DecidableEq, Repr

/-- Row of the `employee_attendance` table (the columns the sync
writes). -/
structure EmployeeAttendanceRow where
  user_id : Int
  brand_id : Int
  check_in : Int
  source : String
  fingerprint_log_id : Option Int
  deriving DecidableEq, Repr

/-- Row of the `member_attendance` table (the columns the sync
writes). -/
structure MemberAttendanceRow where
  member_id : Int
  subscription_id : Option Int
  brand_id : Int
  check_in : Int
  source : String
  fingerprint_log_id : Option Int
  has_warning : Bool
  warning_message : Option String
  deriving DecidableEq, Repr

/-- Row of the `class_bookings` table (the columns the sync reads). -/
structure ClassBookingRow where
  member_id : Int
  booking_date : Int
  status : String
  deriving DecidableEq, Repr

/-- The tables `sync_attendance` reads and writes. -/
structure SyncDB where
  users : List UserRow
  members : List Member
  subscriptions : List Subscription
  plans : List Plan
  bookings : List ClassBookingRow
  employee_attendance : List EmployeeAttendanceRow
  member_attendance : List MemberAttendanceRow
  deriving Repr

/-- One entry of the response's `blocked_entries` list. -/
structure BlockedEntry where
  member_id : Int
  member_name : String
  fingerprint_id : Int
  reason : String
  deriving DecidableEq, Repr

/-- State threaded through the record loop of `sync_attendance`: the
database plus the response accumulators.  Error messages are abstracted
to their count. -/
structure SyncState where
  db : SyncDB
  synced : Nat
  staff_synced : Nat
  member_synced : Nat
  error_count : Nat
  blocked_entries : List BlockedEntry
  deriving Repr

/-- One posted record.  `fingerprint_id` and `log_id` are the optional
JSON fields; `timestamp` is the parsed `datetime.fromisoformat` value,
with `none` covering a missing or empty `timestamp` string as well as a
parse failure (all three are handled by `errors.append` + `continue`). -/
structure AttendanceRecord where
  fingerprint_id : Option Int
  timestamp : Option Int
  log_id : Option Int
  deriving DecidableEq, Repr

/-- Python truthiness of an optional integer field (`if log_id:` /
`if not fingerprint_id`): `None` and `0` are falsy. -/
def truthyInt : Option Int → Bool
  | none => false
  | some n => n != 0

/-- `User.query.filter_by(brand_id=…, fingerprint_id=…,
is_active=True).first()` (api.py lines 106–110). -/
def staffLookup (db : SyncDB) (bid fid : Int) : Option UserRow :=
  db.users.find? (fun u =>
    u.brand_id == bid && u.fingerprint_id == some fid && u.is_active)

/-- `Member.query.filter_by(brand_id=…, fingerprint_id=…).first()`
(api.py lines 136–139). -/
def memberLookup (db : SyncDB) (bid fid : Int) : Option Member :=
  db.members.find? (fun m =>
    m.brand_id == bid && m.fingerprint_id == some fid)

/-- Duplicate check for staff records (api.py lines 115–121): an
`EmployeeAttendance` row of the matched user with this
`fingerprint_log_id`. -/
def empDup (db : SyncDB) (uid n : Int) : Bool :=
  db.employee_attendance.any (fun a =>
    a.user_id == uid && a.fingerprint_log_id == some n)

/-- Duplicate check for member records (api.py lines 146–151): any
`MemberAttendance` row with this `fingerprint_log_id`. -/
def memDup (db : SyncDB) (n : Int) : Bool :=
  db.member_attendance.any (fun a => a.fingerprint_log_id == some n)

/-- `Subscription.query.filter(member_id=…, status='active',
end_date >= today).first()` (api.py lines 154–159). -/
def activeSubLookup (db : SyncDB) (mid today : Int) : Option Subscription :=
  db.subscriptions.find? (fun s =>
    s.member_id == mid && s.status == "active" &&
      decide (today ≤ s.end_date))

/-- `Subscription.query.filter_by(member_id=…)
.order_by(end_date.desc()).first()` (api.py lines 169–172).  Ties on
`end_date` are unordered in SQL; the model keeps the earliest matching
row. -/
def lastSubLookup (db : SyncDB) (mid : Int) : Option Subscription :=
  (db.subscriptions.filter (fun s => s.member_id == mid)).foldl
    (fun acc s =>
      match acc with
      | none => some s
      | some b => if s.end_date > b.end_date then some s else some b)
    none

/-- Booking check (api.py lines 189–195): a `ClassBooking` of the member
for today with status `booked` or `attended`. -/
def bookingLookup (db : SyncDB) (mid today : Int) : Bool :=
  db.bookings.any (fun b =>
    b.member_id == mid && b.booking_date == today &&
      (b.status == "booked" || b.status == "attended"))

/-- `Plan` row of a subscription's `plan` relationship. -/
def planLookup (db : SyncDB) (pid : Int) : Option Plan :=
  db.plans.find? (fun p => p.id == pid)

/-- What the loop body of `sync_attendance` decides to do with one
record.  Factoring the decision (a read-only function of the database)
from its effect keeps the loop body identical to the source while making
the bookkeeping explicit. -/
inductive SyncAction where
  | err
  | skip
  | addEmp (row : EmployeeAttendanceRow)
  | addMem (row : MemberAttendanceRow) (blocked : Option BlockedEntry)
  deriving DecidableEq, Repr

/-- Warning message for a member without a usable subscription (api.py
lines 166–180): `frozen subscription` when the member's latest
subscription is frozen, `expired subscription` when it is past its end
date, `no active subscription` otherwise (Arabic strings as in the
source). -/
def blockedMessage (db : SyncDB) (mid today : Int) : String :=
  match lastSubLookup db mid with
  | some ls =>
    if ls.status = "frozen" then "الاشتراك مجمد"
    else if ls.end_date < today then "الاشتراك منتهي"
    else "لا يوجد اشتراك نشط"
  | none => "لا يوجد اشتراك نشط"

/-- The decision taken by the loop body of `sync_attendance` (api.py
lines 87–216) for one record, mirroring the source order: validity
checks, staff routing with its duplicate check, member routing with its
duplicate check, active-subscription lookup with the blocked/warning
bookkeeping, class-booking warning. -/
def decideAction (today bid : Int) (db : SyncDB) (r : AttendanceRecord) :
    SyncAction :=
  match r.fingerprint_id, r.timestamp with
  | some fid, some ts =>
    if fid = 0 then .err
    else
      match staffLookup db bid fid with
      | some u =>
        if truthyInt r.log_id ∧
            empDup db u.id (r.log_id.getD 0) then .skip
        else
          .addEmp { user_id := u.id, brand_id := bid, check_in := ts,
                    source := "fingerprint", fingerprint_log_id := r.log_id }
      | none =>
        match memberLookup db bid fid with
        | none => .err
        | some m =>
          if truthyInt r.log_id ∧ memDup db (r.log_id.getD 0) then .skip
          else
            match activeSubLookup db m.id today with
            | none =>
              let msg := blockedMessage db m.id today
              .addMem
                { member_id := m.id, subscription_id := none,
                  brand_id := bid, check_in := ts,
                  source := "fingerprint", fingerprint_log_id := r.log_id,
                  has_warning := true, warning_message := some msg }
                (some { member_id := m.id, member_name := m.name,
                        fingerprint_id := fid, reason := msg })
            | some sub =>
              let warn : Bool × Option String :=
                match planLookup db sub.plan_id with
                | some p =>
                  if p.requires_class_booking ∧
                      ¬ bookingLookup db m.id today then
                    (true, some "يجب حجز كلاس قبل الدخول")
                  else (false, none)
                | none => (false, none)
              .addMem
                { member_id := m.id, subscription_id := some sub.id,
                  brand_id := bid, check_in := ts,
                  source := "fingerprint", fingerprint_log_id := r.log_id,
                  has_warning := warn.1, warning_message := warn.2 }
                none
  | _, _ => .err

/-- Effect of one decided action on the loop state (row insertion and
the `synced`/`staff_synced`/`member_synced`/`errors`/`blocked_entries`
accumulators of api.py lines 83–216). -/
def applyAction (st : SyncState) : SyncAction → SyncState
  | .err => { st with error_count := st.error_count + 1 }
  | .skip => st
  | .addEmp row =>
    { st with
      db := { st.db with
              employee_attendance := st.db.employee_attendance ++ [row] }
      staff_synced := st.staff_synced + 1
      synced := st.synced + 1 }
  | .addMem row blocked =>
    { st with
      db := { st.db with
              member_attendance := st.db.member_attendance ++ [row] }
      blocked_entries := st.blocked_entries ++ blocked.toList
      member_synced := st.member_synced + 1
      synced := st.synced + 1 }

/-- One iteration of the record loop of `sync_attendance`. -/
def syncStep (today bid : Int) (st : SyncState) (r : AttendanceRecord) :
    SyncState :=
  applyAction st (decideAction today bid st.db r)

/-- The whole record loop of `sync_attendance` for one posted batch
(the surrounding brand checks, commit and `FingerprintSyncLog` row are
not modelled). -/
def syncAttendance (today bid : Int) (db : SyncDB)
    (records : List AttendanceRecord) : SyncState :=
  records.foldl (syncStep today bid)
    { db := db, synced := 0, staff_synced := 0, member_synced := 0,
      error_count := 0, blocked_entries := [] }

/-- The two databases agree on every table the sync only reads. -/
def dbStaticEq (d1 d2 : SyncDB) : Prop :=
  d1.users = d2.users ∧ d1.members = d2.members ∧
  d1.subscriptions = d2.subscriptions ∧ d1.plans = d2.plans ∧
  d1.bookings = d2.bookings

/-- `d2` is `d1` with the read-only tables unchanged and the attendance
tables only appended to. -/
def dbExtends (d1 d2 : SyncDB) : Prop :=
  dbStaticEq d1 d2 ∧
  (∃ l, d2.employee_attendance = d1.employee_attendance ++ l) ∧
  (∃ l, d2.member_attendance = d1.member_attendance ++ l)

/-- The database already accounts for a record carrying a truthy
`log_id`: the record is invalid, or unmatched, or its duplicate check
fires on the routed side — exactly the situations in which reprocessing
it cannot insert a row. -/
def handled (bid : Int) (db : SyncDB) (r : AttendanceRecord) : Prop :=
  match r.fingerprint_id, r.timestamp with
  | some fid, some _ =>
    fid = 0 ∨
    (match staffLookup db bid fid with
     | some u => ∃ n, r.log_id = some n ∧ empDup db u.id n = true
     | none =>
       match memberLookup db bid fid with
       | none => True
       | some _ => ∃ n, r.log_id = some n ∧ memDup db n = true)
  | _, _ => True

/-! ## Device command queue — `app/models/fingerprint.py` and
`app/routes/api.py` -/

/-- Row of the `device_commands` table (the columns the modelled code
reads or writes).  `status` ranges over `pending`, `processing`,
`completed`, `failed`. -/
structure DeviceCommand where
  id : Int
  brand_id : Int
  command_type : String
  status : String
  error_message : Option String
  created_at : Int
  executed_at : Option Int
  deriving DecidableEq, Repr

/-- `DeviceCommand.get_pending_commands` (fingerprint.py lines 147–153):
the brand's rows with status `pending`, ordered by `created_at`
ascending (`mergeSort` is a stable model of SQL `ORDER BY`). -/
def get_pending_commands (cmds : List DeviceCommand) (bid : Int) :
    List DeviceCommand :=
  (cmds.filter (fun c => c.brand_id == bid && c.status == "pending")).mergeSort
    (fun a b => a.created_at ≤ b.created_at)

/-- The `complete_command` route (api.py lines 464–484): when a row with
the given primary key exists, its status becomes `completed` when the
bridge reports success (the default), else `failed` with
`error_message` (defaulting to `Unknown error`), and `executed_at` is
stamped; an unknown id updates nothing (404). -/
def complete_command (cmds : List DeviceCommand) (cid : Int)
    (success : Bool) (error_message : Option String) (now : Int) :
    List DeviceCommand :=
  if cmds.any (fun c => c.id == cid) then
    cmds.map (fun c =>
      if c.id == cid then
        if success then
          { c with status := "completed", executed_at := some now }
        else
          { c with status := "failed",
                   error_message := some (error_message.getD "Unknown error"),
                   executed_at := some now }
      else c)
  else cmds

/-! ## Concrete rows used by the witness theorems -/

/-- A valid gift card: active, no expiry, balance 100. -/
def giftCardA : GiftCard :=
  { id := 1, brand_id := 1, code := "GC-AAAA1111", original_amount := 100,
    remaining_amount := 100, subscription_id := none, status := "active",
    expires_at := none, redeemed_at := none, redeemed_by_member_id := none }

/-- A cancelled gift card (not valid for use). -/
def giftCardBad : GiftCard :=
  { giftCardA with id := 2, code := "GC-BBBB2222", status := "cancelled" }

/-- A 30-day, 300-unit plan allowing 2 freezes of at most 14 days. -/
def planA : Plan :=
  { id := 2, brand_id := 1, price := 300, duration_days := 30,
    max_freezes := 2, max_freeze_days := 14,
    requires_class_booking := false, is_active := true }

/-- An active, fully paid subscription to `planA`. -/
def subA : Subscription :=
  { id := 11, member_id := 3, plan_id := 2, start_date := 100,
    end_date := 130, original_end_date := 130, total_amount := 300,
    paid_amount := 300, remaining_amount := 0, discount := 0,
    offer_id := none, offer_discount := 0, gift_card_id := none,
    status := "active", freezes := [] }

/-- A frozen subscription. -/
def subFrozen : Subscription := { subA with id := 12, status := "frozen" }

/-- A member of brand 1 without an active subscription. -/
def memberA : Member :=
  { id := 3, brand_id := 1, name := "Test", fingerprint_id := some 55,
    has_active_subscription := false }

/-- A currently valid percentage offer of brand 1. -/
def offerA : PromotionalOffer :=
  { id := 7, brand_id := 1, discount_type := "percentage",
    discount_value := 10, start_date := 90, end_date := 120,
    max_uses := none, current_uses := 0, is_active := true }

/-- The rows a plain create (no offer, no gift card, price fully paid)
produces on day 100. -/
def createOutA : CreateOutcome :=
  { subscription := { subA with id := 0 }, offer := none,
    gift_card := none }

/-- A pending device command of brand 1, created at time 5. -/
def cmdP : DeviceCommand :=
  { id := 1, brand_id := 1, command_type := "block_member",
    status := "pending", error_message := none, created_at := 5,
    executed_at := none }

/-- An earlier pending command of brand 1. -/
def cmdQ : DeviceCommand :=
  { cmdP with id := 2, command_type := "unblock_member", created_at := 3 }

/-- An already completed command of brand 1. -/
def cmdDone : DeviceCommand :=
  { cmdP with id := 3, status := "completed", executed_at := some 4 }

/-- Loop state at the start of a sync request. -/
def initState (db : SyncDB) : SyncState :=
  { db := db, synced := 0, staff_synced := 0, member_synced := 0,
    error_count := 0, blocked_entries := [] }

/-- An active staff user of brand 1 sharing fingerprint 55 with
`memberA`. -/
def userA : UserRow :=
  { id := 21, brand_id := 1, fingerprint_id := some 55, is_active := true }

/-- A stored member-attendance row carrying device log id 77. -/
def memAttRow77 : MemberAttendanceRow :=
  { member_id := 3, subscription_id := none, brand_id := 1,
    check_in := 500, source := "fingerprint", fingerprint_log_id := some 77,
    has_warning := true, warning_message := some "لا يوجد اشتراك نشط" }

/-- Database in which log id 77 of member 3 is already stored. -/
def syncDbDup : SyncDB :=
  { users := [], members := [memberA], subscriptions := [], plans := [],
    bookings := [], employee_attendance := [],
    member_attendance := [memAttRow77] }

/-- Database in which fingerprint 55 matches both an active staff user
and a member. -/
def syncDbBoth : SyncDB :=
  { users := [userA], members := [memberA], subscriptions := [],
    plans := [], bookings := [], employee_attendance := [],
    member_attendance := [] }

/-- Database in which member 3's only subscription is frozen. -/
def syncDbBlocked : SyncDB :=
  { users := [], members := [memberA], subscriptions := [subFrozen],
    plans := [planA], bookings := [], employee_attendance := [],
    member_attendance := [] }

/-- A posted record repeating the stored log id 77. -/
def recDup : AttendanceRecord :=
  { fingerprint_id := some 55, timestamp := some 900, log_id := some 77 }

/-- A posted record with a fresh log id. -/
def recNew : AttendanceRecord :=
  { fingerprint_id := some 55, timestamp := some 901, log_id := some 9 }

end Gym

namespace Gym

/-! ## Theorems -/

/-- Every sync action leaves the read-only tables unchanged and only
appends to the attendance tables. -/
theorem applyAction_extends (st : SyncState) (a : SyncAction) :
    dbExtends st.db (applyAction st a).db := by
  cases a with
  | err =>
    exact ⟨⟨rfl, rfl, rfl, rfl, rfl⟩, ⟨[], by simp [applyAction]⟩,
      ⟨[], by simp [applyAction]⟩⟩
  | skip =>
    exact ⟨⟨rfl, rfl, rfl, rfl, rfl⟩, ⟨[], by simp [applyAction]⟩,
      ⟨[], by simp [applyAction]⟩⟩
  | addEmp row =>
    exact ⟨⟨rfl, rfl, rfl, rfl, rfl⟩, ⟨[row], rfl⟩,
      ⟨[], by simp [applyAction]⟩⟩
  | addMem row blocked =>
    exact ⟨⟨rfl, rfl, rfl, rfl, rfl⟩, ⟨[], by simp [applyAction]⟩,
      ⟨[row], rfl⟩⟩

/-- `dbExtends` is transitive. -/
theorem dbExtends_trans {d1 d2 d3 : SyncDB} (h12 : dbExtends d1 d2)
    (h23 : dbExtends d2 d3) : dbExtends d1 d3 := by
  obtain ⟨⟨e1, e2, e3, e4, e5⟩, ⟨l1, hl1⟩, ⟨l2, hl2⟩⟩ := h12
  obtain ⟨⟨f1, f2, f3, f4, f5⟩, ⟨k1, hk1⟩, ⟨k2, hk2⟩⟩ := h23
  refine ⟨⟨e1.trans f1, e2.trans f2, e3.trans f3, e4.trans f4,
    e5.trans f5⟩, ⟨l1 ++ k1, ?_⟩, ⟨l2 ++ k2, ?_⟩⟩
  · rw [hk1, hl1, List.append_assoc]
  · rw [hk2, hl2, List.append_assoc]

/-- One sync iteration only extends the database. -/
theorem syncStep_extends (today bid : Int) (st : SyncState)
    (r : AttendanceRecord) : dbExtends st.db (syncStep today bid st r).db :=
  applyAction_extends st _

/-- A whole sync batch only extends the database. -/
theorem syncFold_extends (today bid : Int) (rs : List AttendanceRecord)
    (st : SyncState) :
    dbExtends st.db ((rs.foldl (syncStep today bid) st)).db := by
  induction rs generalizing st with
  | nil => exact ⟨⟨rfl, rfl, rfl, rfl, rfl⟩, ⟨[], by simp⟩, ⟨[], by simp⟩⟩
  | cons r rs ih =>
    exact dbExtends_trans (syncStep_extends today bid st r) (ih _)

/-- The staff lookup only reads the `users` table. -/
theorem staffLookup_congr {d1 d2 : SyncDB} (h : dbStaticEq d1 d2)
    (bid fid : Int) : staffLookup d1 bid fid = staffLookup d2 bid fid := by
  unfold staffLookup
  rw [h.1]

/-- The member lookup only reads the `members` table. -/
theorem memberLookup_congr {d1 d2 : SyncDB} (h : dbStaticEq d1 d2)
    (bid fid : Int) : memberLookup d1 bid fid = memberLookup d2 bid fid := by
  unfold memberLookup
  rw [h.2.1]

/-- An employee-attendance duplicate stays a duplicate when rows are
appended. -/
theorem empDup_mono {d1 d2 : SyncDB} (h : dbExtends d1 d2) (uid n : Int)
    (hd : empDup d1 uid n = true) : empDup d2 uid n = true := by
  obtain ⟨-, ⟨l, hl⟩, -⟩ := h
  unfold empDup at hd ⊢
  rw [hl, List.any_append, hd, Bool.true_or]

/-- A member-attendance duplicate stays a duplicate when rows are
appended. -/
theorem memDup_mono {d1 d2 : SyncDB} (h : dbExtends d1 d2) (n : Int)
    (hd : memDup d1 n = true) : memDup d2 n = true := by
  obtain ⟨-, -, ⟨l, hl⟩⟩ := h
  unfold memDup at hd ⊢
  rw [hl, List.any_append, hd, Bool.true_or]

/-- `handled` is preserved when the database is only extended. -/
theorem handled_mono {d1 d2 : SyncDB} (bid : Int) (r : AttendanceRecord)
    (hx : dbExtends d1 d2) (hh : handled bid d1 r) : handled bid d2 r := by
  obtain ⟨rf, rt, rl⟩ := r
  cases rf with
  | none => simp [handled]
  | some fid =>
    cases rt with
    | none => simp [handled]
    | some ts =>
      simp only [handled] at hh ⊢
      rcases hh with h0 | hrest
      · exact Or.inl h0
      · refine Or.inr ?_
        rw [← staffLookup_congr hx.1 bid fid]
        cases hs : staffLookup d1 bid fid with
        | some u =>
          rw [hs] at hrest
          obtain ⟨n, hn, hd⟩ := hrest
          exact ⟨n, hn, empDup_mono hx u.id n hd⟩
        | none =>
          rw [hs] at hrest
          rw [← memberLookup_congr hx.1 bid fid]
          cases hm : memberLookup d1 bid fid with
          | none => trivial
          | some m =>
            rw [hm] at hrest
            obtain ⟨n, hn, hd⟩ := hrest
            exact ⟨n, hn, memDup_mono hx n hd⟩

/-- A truthy optional integer is a non-zero `some`. -/
theorem truthy_some {rl : Option Int} (h : truthyInt rl = true) :
    ∃ n, rl = some n ∧ n ≠ 0 := by
  cases rl with
  | none => simp [truthyInt] at h
  | some n => exact ⟨n, rfl, by simpa [truthyInt] using h⟩

/-- A record the database already accounts for is dropped by the loop
body: its action is an error or a skip. -/
theorem decideAction_of_handled (today bid : Int) (db : SyncDB)
    (r : AttendanceRecord) (htr : truthyInt r.log_id = true)
    (hh : handled bid db r) :
    decideAction today bid db r = .err ∨
      decideAction today bid db r = .skip := by
  obtain ⟨rf, rt, rl⟩ := r
  cases rf with
  | none => left; rfl
  | some fid =>
    cases rt with
    | none => left; rfl
    | some ts =>
      simp only [handled] at hh
      by_cases h0 : fid = 0
      · left; simp [decideAction, h0]
      · rcases hh with h0' | hrest
        · exact absurd h0' h0
        · obtain ⟨n, hn, hn0⟩ := truthy_some htr
          replace hn : rl = some n := hn
          subst hn
          cases hs : staffLookup db bid fid with
          | some u =>
            rw [hs] at hrest
            obtain ⟨n', hn', hdup⟩ := hrest
            replace hn' : some n = some n' := hn'
            obtain rfl := Option.some.inj hn'
            right
            have hcond : truthyInt (some n) = true ∧
                empDup db u.id ((some n : Option Int).getD 0) = true :=
              ⟨by simpa [truthyInt] using hn0, by simpa using hdup⟩
            simp only [decideAction, hs, if_neg h0]
            rw [if_pos hcond]
          | none =>
            rw [hs] at hrest
            cases hm : memberLookup db bid fid with
            | none =>
              rw [hm] at hrest
              left
              simp only [decideAction, hs, hm, if_neg h0]
            | some m =>
              rw [hm] at hrest
              obtain ⟨n', hn', hdup⟩ := hrest
              replace hn' : some n = some n' := hn'
              obtain rfl := Option.some.inj hn'
              right
              have hcond : truthyInt (some n) = true ∧
                  memDup db ((some n : Option Int).getD 0) = true :=
                ⟨by simpa [truthyInt] using hn0, by simpa using hdup⟩
              simp only [decideAction, hs, hm, if_neg h0]
              rw [if_pos hcond]

/-- A handled record leaves the database untouched. -/
theorem step_db_of_handled (today bid : Int) (st : SyncState)
    (r : AttendanceRecord) (htr : truthyInt r.log_id = true)
    (hh : handled bid st.db r) :
    (syncStep today bid st r).db = st.db := by
  rcases decideAction_of_handled today bid st.db r htr hh with h | h <;>
    simp [syncStep, h, applyAction]

/-- A batch of handled records leaves the database untouched. -/
theorem fold_db_of_handled (today bid : Int) (rs : List AttendanceRecord)
    (st : SyncState) (hall : ∀ q ∈ rs, truthyInt q.log_id = true)
    (hh : ∀ q ∈ rs, handled bid st.db q) :
    ((rs.foldl (syncStep today bid) st)).db = st.db := by
  induction rs generalizing st with
  | nil => rfl
  | cons r rs ih =>
    have h1 : (syncStep today bid st r).db = st.db :=
      step_db_of_handled today bid st r (hall r (by simp))
        (hh r (by simp))
    simp only [List.foldl_cons]
    rw [ih (syncStep today bid st r)
      (fun q hq => hall q (by simp [hq]))
      (fun q hq => by rw [h1]; exact hh q (by simp [hq])), h1]

/-- After its own processing, a record with a truthy `log_id` is
accounted for by the database. -/
theorem handled_of_step (today bid : Int) (st : SyncState)
    (r : AttendanceRecord) (htr : truthyInt r.log_id = true) :
    handled bid (syncStep today bid st r).db r := by
  obtain ⟨rf, rt, rl⟩ := r
  obtain ⟨n, hn, hn0⟩ := truthy_some htr
  replace hn : rl = some n := hn
  subst hn
  cases rf with
  | none => simp [handled]
  | some fid =>
    cases rt with
    | none => simp [handled]
    | some ts =>
      by_cases h0 : fid = 0
      · simp only [handled]
        exact Or.inl h0
      · have hx : dbExtends st.db
            (syncStep today bid st ⟨some fid, some ts, some n⟩).db :=
          syncStep_extends today bid st _
        simp only [handled]
        refine Or.inr ?_
        cases hs : staffLookup
            (syncStep today bid st ⟨some fid, some ts, some n⟩).db bid fid with
        | some u =>
          have hs0 : staffLookup st.db bid fid = some u := by
            rw [staffLookup_congr hx.1 bid fid]; exact hs
          refine ⟨n, rfl, ?_⟩
          by_cases hdup : empDup st.db u.id n = true
          · have hda : decideAction today bid st.db
                ⟨some fid, some ts, some n⟩ = .skip := by
              have hcond : truthyInt (some n) = true ∧
                  empDup st.db u.id ((some n : Option Int).getD 0) = true :=
                ⟨by simpa [truthyInt] using hn0, by simpa using hdup⟩
              simp only [decideAction, hs0, if_neg h0]
              rw [if_pos hcond]
            have hdb : (syncStep today bid st
                ⟨some fid, some ts, some n⟩).db = st.db := by
              simp [syncStep, hda, applyAction]
            rw [hdb]
            exact hdup
          · have hda : decideAction today bid st.db
                ⟨some fid, some ts, some n⟩ =
                .addEmp { user_id := u.id, brand_id := bid, check_in := ts,
                          source := "fingerprint",
                          fingerprint_log_id := some n } := by
              have hcond : ¬ (truthyInt (some n) = true ∧
                  empDup st.db u.id ((some n : Option Int).getD 0) = true) := by
                rintro ⟨-, hd⟩
                exact hdup (by simpa using hd)
              simp only [decideAction, hs0, if_neg h0]
              rw [if_neg hcond]
            have hdb : (syncStep today bid st
                  ⟨some fid, some ts, some n⟩).db.employee_attendance =
                st.db.employee_attendance ++
                  [{ user_id := u.id, brand_id := bid, check_in := ts,
                     source := "fingerprint",
                     fingerprint_log_id := some n }] := by
              simp [syncStep, hda, applyAction]
            simp [empDup, hdb, List.any_append]
        | none =>
          have hs0 : staffLookup st.db bid fid = none := by
            rw [staffLookup_congr hx.1 bid fid]; exact hs
          cases hm : memberLookup
              (syncStep today bid st ⟨some fid, some ts, some n⟩).db
                bid fid with
          | none => trivial
          | some m =>
            have hm0 : memberLookup st.db bid fid = some m := by
              rw [memberLookup_congr hx.1 bid fid]; exact hm
            refine ⟨n, rfl, ?_⟩
            by_cases hdup : memDup st.db n = true
            · have hda : decideAction today bid st.db
                  ⟨some fid, some ts, some n⟩ = .skip := by
                have hcond : truthyInt (some n) = true ∧
                    memDup st.db ((some n : Option Int).getD 0) = true :=
                  ⟨by simpa [truthyInt] using hn0, by simpa using hdup⟩
                simp only [decideAction, hs0, hm0, if_neg h0]
                rw [if_pos hcond]
              have hdb : (syncStep today bid st
                  ⟨some fid, some ts, some n⟩).db = st.db := by
                simp [syncStep, hda, applyAction]
              rw [hdb]
              exact hdup
            · have hcond : ¬ (truthyInt (some n) = true ∧
                  memDup st.db ((some n : Option Int).getD 0) = true) := by
                rintro ⟨-, hd⟩
                exact hdup (by simpa using hd)
              suffices hsuff : ∃ l,
                  (syncStep today bid st
                      ⟨some fid, some ts, some n⟩).db.member_attendance =
                    st.db.member_attendance ++ l ∧
                  l.any (fun a => a.fingerprint_log_id == some n) = true by
                obtain ⟨l, hl, hany⟩ := hsuff
                simp [memDup, hl, List.any_append, hany]
              simp only [syncStep, decideAction, hs0, hm0, if_neg h0]
              rw [if_neg hcond]
              cases ha : activeSubLookup st.db m.id today with
              | none =>
                simp only [ha]
                exact ⟨_, rfl, by simp⟩
              | some sub =>
                simp only [ha]
                exact ⟨_, rfl, by simp⟩

/-- After a whole batch, every record of the batch that carries a truthy
`log_id` is accounted for by the database. -/
theorem handled_after_fold (today bid : Int) (rs : List AttendanceRecord)
    (st : SyncState) (hall : ∀ q ∈ rs, truthyInt q.log_id = true) :
    ∀ q ∈ rs, handled bid ((rs.foldl (syncStep today bid) st)).db q := by
  induction rs generalizing st with
  | nil => intro q hq; cases hq
  | cons r rs ih =>
    intro q hq
    simp only [List.foldl_cons]
    rcases List.mem_cons.mp hq with rfl | hq'
    · have h1 := handled_of_step today bid st q (hall q (by simp))
      exact handled_mono bid q
        (syncFold_extends today bid rs (syncStep today bid st q)) h1
    · exact ih (syncStep today bid st r)
        (fun p hp => hall p (by simp [hp])) q hq'

/-- A valid gift card has a strictly positive remaining balance. -/
theorem GiftCard.is_valid_pos (c : GiftCard) (today : Int)
    (h : c.is_valid today = true) : 0 < c.remaining_amount := by
  unfold GiftCard.is_valid at h
  split_ifs at h with h1 h2 h3
  exact lt_of_not_le h3

/-- C9: `GiftCard.redeem` never drives `remaining_amount` below zero (the
redeemed amount is capped at the balance); after a successful redemption
the status is `redeemed` exactly when the balance is `0` and
`partially_used` otherwise; and redeeming an invalid card returns failure
with the card unchanged. -/
theorem giftcard_redeem_spec (c : GiftCard) (today now : Int) (amount : ℚ)
    (mid : Int) (sid : Option Int) :
    ((c.redeem today now amount mid sid).1 = true →
      0 ≤ (c.redeem today now amount mid sid).2.2.remaining_amount ∧
      ((c.redeem today now amount mid sid).2.2.status = "redeemed" ↔
        (c.redeem today now amount mid sid).2.2.remaining_amount = 0) ∧
      ((c.redeem today now amount mid sid).2.2.status = "partially_used" ↔
        ¬ (c.redeem today now amount mid sid).2.2.remaining_amount = 0)) ∧
    (c.is_valid today = false →
      c.redeem today now amount mid sid = (false, 0, c)) := by
  by_cases hv : c.is_valid today = true
  · have hpos := GiftCard.is_valid_pos c today hv
    constructor
    · intro _
      unfold GiftCard.redeem
      simp only [hv, not_true_eq_false, if_false]
      by_cases hgt : amount > c.remaining_amount
      · simp only [if_pos hgt]
        have h0 : c.remaining_amount - c.remaining_amount = (0 : ℚ) := by ring
        simp only [h0]
        refine ⟨le_refl 0, by simp, by simp⟩
      · simp only [if_neg hgt]
        by_cases hle : c.remaining_amount - amount ≤ 0
        · have h0 : c.remaining_amount - amount = 0 := by
            push_neg at hgt
            linarith
          simp only [hle, if_pos, h0]
          refine ⟨le_refl 0, by simp, by simp⟩
        · simp only [if_neg hle]
          push_neg at hle
          refine ⟨le_of_lt hle, ?_, ?_⟩
          · constructor
            · intro hs; exact absurd hs (by simp)
            · intro h0; exact absurd h0 (ne_of_gt hle)
          · simp [ne_of_gt hle]
    · intro hf
      rw [hv] at hf
      exact absurd hf (by simp)
  · have hv' : c.is_valid today = false := by
      cases h : c.is_valid today
      · rfl
      · exact absurd h hv
    constructor
    · intro hok
      unfold GiftCard.redeem at hok
      simp [hv'] at hok
    · intro _
      unfold GiftCard.redeem
      simp [hv']

/-- Witness for C9 at concrete cards: a 30-unit redemption from a valid
100-unit card succeeds, and redeeming a cancelled card fails and leaves
it unchanged. -/
theorem giftcard_redeem_spec_witness :
    0 ≤ (giftCardA.redeem 0 5 30 7 none).2.2.remaining_amount ∧
    giftCardBad.redeem 0 5 30 7 none = (false, 0, giftCardBad) :=
  ⟨((giftcard_redeem_spec giftCardA 0 5 30 7 none).1
      (by norm_num [GiftCard.redeem, GiftCard.is_valid, giftCardA])).1,
   (giftcard_redeem_spec giftCardBad 0 5 30 7 none).2 (by decide)⟩

/-- C7: after a successful renewal, `total_amount` grows by exactly the
selected plan's price, `paid_amount` by exactly the amount paid,
`remaining_amount` equals `total_amount - paid_amount`, the status is
`active`, `start_date` is the chosen start and `end_date` is that start
plus the plan's `duration_days`. -/
theorem renew_spec (s : Subscription) (plan : Plan) (paid discount : ℚ)
    (new_start : Int) :
    (s.renew plan paid discount new_start).total_amount =
        s.total_amount + plan.price ∧
    (s.renew plan paid discount new_start).paid_amount =
        s.paid_amount + paid ∧
    (s.renew plan paid discount new_start).remaining_amount =
        (s.renew plan paid discount new_start).total_amount -
          (s.renew plan paid discount new_start).paid_amount ∧
    (s.renew plan paid discount new_start).status = "active" ∧
    (s.renew plan paid discount new_start).start_date = new_start ∧
    (s.renew plan paid discount new_start).end_date =
        new_start + plan.duration_days :=
  ⟨rfl, rfl, rfl, rfl, rfl, rfl⟩

/-- C2: a freeze request on an active subscription with freeze count
below `plan.max_freezes` is accepted when the requested days do not
exceed `plan.max_freeze_days` minus the days already frozen — adding one
freeze record of `days` days, setting the status to `frozen` and pushing
`end_date` back by exactly `days` — and rejected, leaving the
subscription unchanged, when the request exceeds the remaining days. -/
theorem freeze_spec (s : Subscription) (plan : Plan) (fs days : Int)
    (hact : s.status = "active")
    (hcount : s.freeze_count < plan.max_freezes) :
    (days ≤ plan.max_freeze_days - s.total_freeze_days →
      s.freeze plan fs days =
        (true,
         { s with
           freezes := s.freezes ++
             [{ freeze_start := fs, freeze_end := fs + days,
                freeze_days := days }]
           end_date := s.end_date + days
           status := "frozen" })) ∧
    (plan.max_freeze_days - s.total_freeze_days < days →
      s.freeze plan fs days = (false, s)) := by
  have hcf : s.can_freeze plan = true := by
    unfold Subscription.can_freeze
    simp [hact, hcount]
  constructor
  · intro hle
    unfold Subscription.freeze
    rw [if_neg (by simp [hcf]), if_neg (not_lt.mpr hle)]
  · intro hgt
    unfold Subscription.freeze
    rw [if_neg (by simp [hcf]), if_pos hgt]

/-- Witness for C2 at a concrete subscription: 5 days are accepted with
the expected update, 20 days are rejected without change. -/
theorem freeze_spec_witness :
    subA.freeze planA 10 5 =
      (true,
       { subA with
         freezes := [{ freeze_start := 10, freeze_end := 15,
                       freeze_days := 5 }]
         end_date := subA.end_date + 5
         status := "frozen" }) ∧
    subA.freeze planA 10 20 = (false, subA) :=
  ⟨(freeze_spec subA planA 10 5 (by decide) (by decide)).1 (by decide),
   (freeze_spec subA planA 10 20 (by decide) (by decide)).2 (by decide)⟩

/-- C5 counterexample: the `unfreeze` route moves a frozen subscription
straight back to status `active`, so a frozen subscription does not move
only to `expired`/`stopped`/`cancelled`. -/
theorem unfreeze_returns_frozen_to_active :
    subFrozen.status = "frozen" ∧
    (Op.unfreeze.apply subFrozen).status = "active" :=
  ⟨rfl, rfl⟩

/-- C5 amended: once a subscription is `frozen`, the application's
operations move it only to `expired`, `stopped`, `cancelled` or back to
`active` (the last via `unfreeze` or `renew`). -/
theorem frozen_transitions (s : Subscription) (op : Op)
    (h : s.status = "frozen") :
    (op.apply s).status = "frozen" ∨ (op.apply s).status = "expired" ∨
    (op.apply s).status = "stopped" ∨ (op.apply s).status = "cancelled" ∨
    (op.apply s).status = "active" := by
  cases op with
  | renew plan paid discount new_start =>
    right; right; right; right; rfl
  | freeze plan fs days =>
    left
    have hcf : s.can_freeze plan = false := by
      unfold Subscription.can_freeze
      simp [h]
    simp only [Op.apply, Subscription.freeze, hcf]
    simp [h]
  | unfreeze =>
    right; right; right; right
    simp [Op.apply, Subscription.unfreeze, h]
  | stop =>
    right; right; left
    simp [Op.apply, Subscription.stop, h]
  | checkStatus today =>
    left
    simp [Op.apply, Subscription.check_and_update_status, h]

/-- Witness for C5's amended statement at a concrete frozen
subscription and the `stop` operation. -/
theorem frozen_transitions_witness :
    (Op.stop.apply subFrozen).status = "frozen" ∨
    (Op.stop.apply subFrozen).status = "expired" ∨
    (Op.stop.apply subFrozen).status = "stopped" ∨
    (Op.stop.apply subFrozen).status = "cancelled" ∨
    (Op.stop.apply subFrozen).status = "active" :=
  frozen_transitions subFrozen .stop rfl

/-- Every subscription row returned by a successful `create` carries
status `active`. -/
theorem create_subscription_status (today now : Int) (member : Member)
    (plan : Plan) (df : Option ℚ) (oif : Option Int) (gcf : Option String)
    (paf : ℚ) (offers : List PromotionalOffer) (cards : List GiftCard)
    (out : CreateOutcome)
    (h : create_subscription today now member plan df oif gcf paf
          offers cards = .ok (some out)) :
    out.subscription.status = "active" := by
  unfold create_subscription at h
  split at h
  · simp only [Except.ok.injEq] at h
    exact Option.noConfusion h
  · simp only [PromotionalOffer.can_use_lookup] at h
    repeat' split at h
    all_goals first
      | exact Except.noConfusion h
      | (simp only [Except.ok.injEq, Option.some.injEq] at h; subst h; rfl)

/-- C8: after every state-writing operation — creation, renewal, freeze,
unfreeze, stop and `check_and_update_status` — the subscription status
is one of the five values `active`, `frozen`, `expired`, `cancelled`,
`stopped`. -/
theorem status_invariant (today now : Int) (member : Member) (plan : Plan)
    (df : Option ℚ) (oif : Option Int) (gcf : Option String) (paf : ℚ)
    (offers : List PromotionalOffer) (cards : List GiftCard)
    (out : CreateOutcome) (s : Subscription) (op : Op)
    (hcreate : create_subscription today now member plan df oif gcf paf
                offers cards = .ok (some out))
    (h : statusOk s) :
    statusOk out.subscription ∧ statusOk (op.apply s) := by
  constructor
  · left
    exact create_subscription_status today now member plan df oif gcf paf
      offers cards out hcreate
  · cases op with
    | renew plan' paid discount new_start =>
      left; rfl
    | freeze plan' fs days =>
      simp only [Op.apply, Subscription.freeze]
      split_ifs with h1 h2
      all_goals first
        | exact h
        | (right; left; rfl)
    | unfreeze =>
      simp only [Op.apply, Subscription.unfreeze]
      split_ifs with h1
      all_goals first
        | exact h
        | (left; rfl)
    | stop =>
      simp only [Op.apply, Subscription.stop]
      split_ifs with h1
      all_goals first
        | exact h
        | (right; right; right; right; rfl)
    | checkStatus t =>
      simp only [Op.apply, Subscription.check_and_update_status]
      split_ifs with h1
      all_goals first
        | exact h
        | (right; right; left; rfl)

/-- Witness for C8: a concrete plain create succeeds with an `active`
subscription, and unfreezing the concrete frozen subscription keeps the
status inside the five documented values. -/
theorem status_invariant_witness :
    statusOk createOutA.subscription ∧ statusOk (Op.unfreeze.apply subFrozen) :=
  status_invariant 100 0 memberA planA none none none 300 [] []
    createOutA subFrozen .unfreeze
    (by norm_num [create_subscription, memberA, planA, createOutA, subA])
    (by decide)

/-- C6: the pending-commands poll returns exactly the brand's `pending`
rows, ordered by `created_at` ascending; completing a command updates
exactly the row with that id — to `completed`, or to `failed` with an
`error_message` on reported failure — stamping `executed_at`, after
which no later poll returns a row with that id; and a command the bridge
never acknowledges stays in every later poll. -/
theorem device_command_queue_spec (cmds : List DeviceCommand)
    (bid cid : Int) (success : Bool) (err : Option String) (now : Int) :
    ((get_pending_commands cmds bid).Perm
        (cmds.filter (fun c => c.brand_id == bid && c.status == "pending")) ∧
      (get_pending_commands cmds bid).Pairwise
        (fun a b => a.created_at ≤ b.created_at)) ∧
    (∀ c' ∈ complete_command cmds cid success err now, c'.id = cid →
      c'.status = (if success then "completed" else "failed") ∧
      c'.executed_at = some now ∧
      (success = false →
        c'.error_message = some (err.getD "Unknown error"))) ∧
    (∀ bid' : Int,
      ∀ c' ∈ get_pending_commands
          (complete_command cmds cid success err now) bid', ¬ c'.id = cid) ∧
    (∀ c ∈ get_pending_commands cmds bid, ¬ c.id = cid →
      c ∈ get_pending_commands (complete_command cmds cid success err now)
        bid) := by
  have hperm : ∀ (l : List DeviceCommand) (b : Int),
      (get_pending_commands l b).Perm
        (l.filter (fun c => c.brand_id == b && c.status == "pending")) := by
    intro l b
    exact List.mergeSort_perm _ _
  have hmem : ∀ (l : List DeviceCommand) (b : Int) (c : DeviceCommand),
      c ∈ get_pending_commands l b ↔
        (c ∈ l ∧ (c.brand_id == b && c.status == "pending") = true) := by
    intro l b c
    unfold get_pending_commands
    rw [List.mem_mergeSort, List.mem_filter]
  refine ⟨⟨hperm cmds bid, ?_⟩, ?_, ?_, ?_⟩
  · have hs := @List.sorted_mergeSort DeviceCommand
      (fun a b : DeviceCommand => a.created_at ≤ b.created_at)
      (fun a b c hab hbc => by
        simp only [decide_eq_true_eq] at *
        exact le_trans hab hbc)
      (fun a b => by
        simp only [Bool.or_eq_true, decide_eq_true_eq]
        exact le_total _ _)
      (cmds.filter (fun c => c.brand_id == bid && c.status == "pending"))
    exact hs.imp (fun hab => by simpa using hab)
  · intro c' hc' hid
    unfold complete_command at hc'
    by_cases hfound : (cmds.any (fun c => c.id == cid)) = true
    · rw [if_pos hfound] at hc'
      obtain ⟨c₀, hc₀, rfl⟩ := List.mem_map.mp hc'
      by_cases h0 : c₀.id = cid
      · cases success <;> simp [h0]
      · have hbeq : (c₀.id == cid) = false := by simpa using h0
        simp only [hbeq] at hid
        simp at hid
        exact absurd hid h0
    · rw [if_neg hfound] at hc'
      exfalso
      apply hfound
      rw [List.any_eq_true]
      exact ⟨c', hc', by simpa using hid⟩
  · intro bid' c' hc' hid
    obtain ⟨hmem', hpred⟩ := (hmem _ _ _).mp hc'
    unfold complete_command at hmem'
    by_cases hfound : (cmds.any (fun c => c.id == cid)) = true
    · rw [if_pos hfound] at hmem'
      obtain ⟨c₀, hc₀, rfl⟩ := List.mem_map.mp hmem'
      by_cases h0 : c₀.id = cid
      · cases success <;> simp [h0] at hpred
      · have hbeq : (c₀.id == cid) = false := by simpa using h0
        simp only [hbeq] at hid
        simp at hid
        exact h0 hid
    · rw [if_neg hfound] at hmem'
      apply hfound
      rw [List.any_eq_true]
      exact ⟨c', hmem', by simpa using hid⟩
  · intro c hc hid
    obtain ⟨hmem', hpred⟩ := (hmem _ _ _).mp hc
    rw [hmem]
    refine ⟨?_, hpred⟩
    unfold complete_command
    by_cases hfound : (cmds.any (fun c => c.id == cid)) = true
    · rw [if_pos hfound]
      have hbeq : (c.id == cid) = false := by simpa using hid
      exact List.mem_map.mpr ⟨c, hmem', by simp [hbeq]⟩
    · rw [if_neg hfound]
      exact hmem'

/-- Witness for C6 at a concrete queue: after completing command 1 with
a failure report, the still-pending command 2 is returned again by the
next poll. -/
theorem device_command_queue_spec_witness :
    cmdQ ∈ get_pending_commands
      (complete_command [cmdP, cmdQ, cmdDone] 1 false none 10) 1 :=
  (device_command_queue_spec [cmdP, cmdQ, cmdDone] 1 1 false none 10).2.2.2
    cmdQ
    (by unfold get_pending_commands
        rw [List.mem_mergeSort]
        decide)
    (by decide)

/-- C1 (code bug in the source): the `create` route evaluates
`offer.can_use`, an attribute `PromotionalOffer` does not define, so any
subscription creation that selects an offer — here a currently valid
10% offer — raises `AttributeError` instead of storing the discounted
`total_amount` and incrementing the offer's `current_uses`. -/
theorem create_with_offer_raises :
    offerA.is_valid 100 = true ∧
    create_subscription 100 0 memberA planA none (some 7) none 300
      [offerA] [] = .error .attributeError := by
  constructor
  · decide
  · rfl

/-- C3: a posted record whose truthy `log_id` already matches a stored
attendance row — an `EmployeeAttendance` row of the matched staff user,
or any `MemberAttendance` row for a member-routed record — is skipped,
changing nothing; consequently re-posting a whole batch whose records
all carry truthy log ids adds no attendance row to the once-synced
database. -/
theorem sync_attendance_dedup (today bid : Int) (st : SyncState)
    (r : AttendanceRecord) (fid ts n : Int) (db : SyncDB)
    (records : List AttendanceRecord)
    (hf : r.fingerprint_id = some fid) (hf0 : fid ≠ 0)
    (ht : r.timestamp = some ts) (hl : r.log_id = some n) (hn : n ≠ 0)
    (hdup :
      (∃ u, staffLookup st.db bid fid = some u ∧
        empDup st.db u.id n = true) ∨
      (staffLookup st.db bid fid = none ∧
        (∃ m, memberLookup st.db bid fid = some m) ∧
        memDup st.db n = true))
    (hall : ∀ q ∈ records, truthyInt q.log_id = true) :
    syncStep today bid st r = st ∧
    (syncAttendance today bid (syncAttendance today bid db records).db
        records).db = (syncAttendance today bid db records).db := by
  constructor
  · obtain ⟨rf, rt, rl⟩ := r
    replace hf : rf = some fid := hf
    replace ht : rt = some ts := ht
    replace hl : rl = some n := hl
    subst hf; subst ht; subst hl
    have hda : decideAction today bid st.db
        ⟨some fid, some ts, some n⟩ = .skip := by
      rcases hdup with ⟨u, hu, hd⟩ | ⟨hsn, ⟨m, hm⟩, hd⟩
      · have hcond : truthyInt (some n) = true ∧
            empDup st.db u.id ((some n : Option Int).getD 0) = true :=
          ⟨by simpa [truthyInt] using hn, by simpa using hd⟩
        simp only [decideAction, hu, if_neg hf0]
        rw [if_pos hcond]
      · have hcond : truthyInt (some n) = true ∧
            memDup st.db ((some n : Option Int).getD 0) = true :=
          ⟨by simpa [truthyInt] using hn, by simpa using hd⟩
        simp only [decideAction, hsn, hm, if_neg hf0]
        rw [if_pos hcond]
    simp [syncStep, hda, applyAction]
  · have hh : ∀ q ∈ records,
        handled bid (syncAttendance today bid db records).db q :=
      handled_after_fold today bid records _ hall
    exact fold_db_of_handled today bid records _ hall hh

/-- Witness for C3 at a concrete database: re-posting the already-stored
log id 77 changes nothing, and re-posting the one-record batch over the
once-synced database leaves it unchanged. -/
theorem sync_attendance_dedup_witness :
    syncStep 1000 1 (initState syncDbDup) recDup = initState syncDbDup ∧
    (syncAttendance 1000 1 (syncAttendance 1000 1 syncDbDup [recDup]).db
        [recDup]).db = (syncAttendance 1000 1 syncDbDup [recDup]).db :=
  sync_attendance_dedup 1000 1 (initState syncDbDup) recDup 55 900 77
    syncDbDup [recDup] rfl (by decide) rfl rfl (by decide)
    (Or.inr ⟨rfl, ⟨memberA, rfl⟩, rfl⟩) (by decide)

/-- C4: a record whose fingerprint matches an active staff user of the
brand never adds a `MemberAttendance` row — even when a member shares
the fingerprint — and, unless its log id is already stored for that
user, adds exactly one `EmployeeAttendance` row. -/
theorem sync_staff_first (today bid : Int) (st : SyncState)
    (r : AttendanceRecord) (fid ts : Int) (u : UserRow) (m : Member)
    (hf : r.fingerprint_id = some fid) (hf0 : fid ≠ 0)
    (ht : r.timestamp = some ts)
    (hu : staffLookup st.db bid fid = some u)
    (hm : memberLookup st.db bid fid = some m) :
    (syncStep today bid st r).db.member_attendance =
      st.db.member_attendance ∧
    (¬ (truthyInt r.log_id = true ∧
        empDup st.db u.id (r.log_id.getD 0) = true) →
      (syncStep today bid st r).db.employee_attendance =
        st.db.employee_attendance ++
          [{ user_id := u.id, brand_id := bid, check_in := ts,
             source := "fingerprint", fingerprint_log_id := r.log_id }]) := by
  obtain ⟨rf, rt, rl⟩ := r
  replace hf : rf = some fid := hf
  replace ht : rt = some ts := ht
  subst hf; subst ht
  by_cases hc : truthyInt rl = true ∧ empDup st.db u.id (rl.getD 0) = true
  · have hda : decideAction today bid st.db
        ⟨some fid, some ts, rl⟩ = .skip := by
      simp only [decideAction, hu, if_neg hf0]
      rw [if_pos hc]
    constructor
    · simp [syncStep, hda, applyAction]
    · intro hno
      exact absurd hc hno
  · have hda : decideAction today bid st.db ⟨some fid, some ts, rl⟩ =
        .addEmp { user_id := u.id, brand_id := bid, check_in := ts,
                  source := "fingerprint", fingerprint_log_id := rl } := by
      simp only [decideAction, hu, if_neg hf0]
      rw [if_neg hc]
    constructor
    · simp [syncStep, hda, applyAction]
    · intro hno
      simp [syncStep, hda, applyAction]

/-- Witness for C4 at a concrete database in which fingerprint 55 is
both the staff user 21 and member 3: the employee table gains the row,
the member table stays empty. -/
theorem sync_staff_first_witness :
    (syncStep 1000 1 (initState syncDbBoth) recNew).db.member_attendance =
      (initState syncDbBoth).db.member_attendance ∧
    (¬ (truthyInt recNew.log_id = true ∧
        empDup (initState syncDbBoth).db userA.id
          (recNew.log_id.getD 0) = true) →
      (syncStep 1000 1 (initState syncDbBoth) recNew).db.employee_attendance =
        (initState syncDbBoth).db.employee_attendance ++
          [{ user_id := userA.id, brand_id := 1, check_in := 901,
             source := "fingerprint",
             fingerprint_log_id := recNew.log_id }]) :=
  sync_staff_first 1000 1 (initState syncDbBoth) recNew 55 901 userA
    memberA rfl (by decide) rfl rfl rfl

/-- C10: a record matching a member with no subscription that is both
`active` and unexpired still inserts a `MemberAttendance` row — with
null `subscription_id`, `has_warning` set and a warning message naming
the frozen, expired or missing subscription — and additionally lists the
member in the response's `blocked_entries`. -/
theorem sync_blocked_member_recorded (today bid : Int) (st : SyncState)
    (r : AttendanceRecord) (fid ts : Int) (m : Member)
    (hf : r.fingerprint_id = some fid) (hf0 : fid ≠ 0)
    (ht : r.timestamp = some ts)
    (hstaff : staffLookup st.db bid fid = none)
    (hm : memberLookup st.db bid fid = some m)
    (hnodup : ¬ (truthyInt r.log_id = true ∧
      memDup st.db (r.log_id.getD 0) = true))
    (hnosub : activeSubLookup st.db m.id today = none) :
    (syncStep today bid st r).db.member_attendance =
      st.db.member_attendance ++
        [{ member_id := m.id, subscription_id := none, brand_id := bid,
           check_in := ts, source := "fingerprint",
           fingerprint_log_id := r.log_id, has_warning := true,
           warning_message := some (blockedMessage st.db m.id today) }] ∧
    (syncStep today bid st r).blocked_entries =
      st.blocked_entries ++
        [{ member_id := m.id, member_name := m.name, fingerprint_id := fid,
           reason := blockedMessage st.db m.id today }] ∧
    (blockedMessage st.db m.id today = "الاشتراك مجمد" ∨
     blockedMessage st.db m.id today = "الاشتراك منتهي" ∨
     blockedMessage st.db m.id today = "لا يوجد اشتراك نشط") := by
  obtain ⟨rf, rt, rl⟩ := r
  replace hf : rf = some fid := hf
  replace ht : rt = some ts := ht
  replace hnodup : ¬ (truthyInt rl = true ∧
      memDup st.db (rl.getD 0) = true) := hnodup
  subst hf; subst ht
  have hda : decideAction today bid st.db ⟨some fid, some ts, rl⟩ =
      .addMem
        { member_id := m.id, subscription_id := none, brand_id := bid,
          check_in := ts, source := "fingerprint",
          fingerprint_log_id := rl, has_warning := true,
          warning_message := some (blockedMessage st.db m.id today) }
        (some { member_id := m.id, member_name := m.name,
                fingerprint_id := fid,
                reason := blockedMessage st.db m.id today }) := by
    simp only [decideAction, hstaff, hm, if_neg hf0, hnosub]
    rw [if_neg hnodup]
  refine ⟨by simp [syncStep, hda, applyAction],
    by simp [syncStep, hda, applyAction, Option.toList], ?_⟩
  unfold blockedMessage
  cases lastSubLookup st.db m.id with
  | none => right; right; rfl
  | some ls =>
    by_cases h1 : ls.status = "frozen"
    · left; simp [h1]
    · by_cases h2 : ls.end_date < today
      · right; left; simp [h1, h2]
      · right; right; simp [h1, h2]

/-- Witness for C10 at a concrete database in which member 3's only
subscription is frozen: the check-in is recorded with the frozen-
subscription warning and the member appears in `blocked_entries`. -/
theorem sync_blocked_member_recorded_witness :
    (syncStep 1000 1 (initState syncDbBlocked) recNew).db.member_attendance =
      (initState syncDbBlocked).db.member_attendance ++
        [{ member_id := memberA.id, subscription_id := none, brand_id := 1,
           check_in := 901, source := "fingerprint",
           fingerprint_log_id := recNew.log_id, has_warning := true,
           warning_message :=
             some (blockedMessage (initState syncDbBlocked).db
               memberA.id 1000) }] ∧
    (syncStep 1000 1 (initState syncDbBlocked) recNew).blocked_entries =
      (initState syncDbBlocked).blocked_entries ++
        [{ member_id := memberA.id, member_name := memberA.name,
           fingerprint_id := 55,
           reason := blockedMessage (initState syncDbBlocked).db
             memberA.id 1000 }] ∧
    (blockedMessage (initState syncDbBlocked).db memberA.id 1000 =
        "الاشتراك مجمد" ∨
     blockedMessage (initState syncDbBlocked).db memberA.id 1000 =
        "الاشتراك منتهي" ∨
     blockedMessage (initState syncDbBlocked).db memberA.id 1000 =
        "لا يوجد اشتراك نشط") :=
  sync_blocked_member_recorded 1000 1 (initState syncDbBlocked) recNew 55
    901 memberA rfl (by decide) rfl rfl rfl (by decide) rfl

end Gym
